import Mathlib

/-
Verification of the autonomous portfolio rebalancer's decision core.

The Python source is shallowly embedded: dictionaries become association
lists `List (String × _)` iterated in insertion order, floats become `ℚ`,
fallible code (attribute errors, `next` over an empty iterator) returns
`Option`, and the Decision Agent's mutable fields become an explicit
`AgentState` threaded through `make_decision`.
-/

namespace Rebal

/-! ## Configuration constants (config/settings.py) -/

def PORTFOLIO_BASIS : ℚ := 1000000

def DRIFT_THRESHOLD_CRITICAL : ℚ := 3/100

def DRIFT_THRESHOLD_HIGH : ℚ := 25/1000

def DRIFT_THRESHOLD_MEDIUM : ℚ := 15/1000

def VAR_THRESHOLD_WARNING : ℚ := -(3/100)

def SHARPE_THRESHOLD_WARNING : ℚ := 1

/-- MAX_TURNOVER_RATIO in config/settings.py (0.20). -/
def MAX_TURNOVER : ℚ := 1/5

def REBALANCE_COOLDOWN_DAYS : ℤ := 3

/-! ## Enumerations (src/models/decision.py) -/

inductive Regime where
  | LOW_VOL
  | MODERATE
  | HIGH_VOL
  | CRISIS
deriving DecidableEq, Repr

inductive DecisionStatus where
  | TRIGGER
  | MONITORING
  | ALERT
  | EXECUTE
  | DEFER
deriving DecidableEq, Repr

inductive ScenarioType where
  | FULL_REBALANCE
  | PARTIAL_REBALANCE
  | SECTOR_REBALANCE
  | DEFER
deriving DecidableEq, Repr

/-! ## Data model (src/models/decision.py, src/models/portfolio.py) -/

structure Trade where
  ticker : String
  action : String
  shares : ℕ
  value : ℚ
  price : ℚ
  current_weight : ℚ
  target_weight : ℚ
  drift : ℚ
  priority : String
  rationale : String := ""
  sector : String := ""
deriving DecidableEq, Repr

structure Scenario where
  scenario_type : ScenarioType
  trades : List Trade := []
  total_capital : ℚ := 0
  num_trades : ℕ := 0
  expected_max_drift : ℚ := 0
  expected_sharpe_impact : ℚ := 0
  expected_var_impact : ℚ := 0
  score : ℚ := 0
  tradeoffs : String := ""
deriving DecidableEq, Repr

/-- Scenario.calculate_turnover (src/models/decision.py lines 61-64). -/
def Scenario.calculate_turnover (s : Scenario) (portfolio_value : ℚ) : ℚ :=
  let total_trade_value := (s.trades.map (fun t => t.value)).sum
  if portfolio_value > 0 then total_trade_value / portfolio_value else 0

structure RiskMetrics where
  var_95 : ℚ
  expected_shortfall : ℚ
  sharpe_ratio : ℚ
  beta : ℚ
  volatility : ℚ
deriving DecidableEq, Repr

structure MonitorResult where
  status : DecisionStatus
  trigger_reason : String
  max_position_drift : ℚ
  max_position_ticker : String := ""
  max_sector_drift : ℚ
  max_sector : String := ""
  var_95 : ℚ
  sharpe_ratio : ℚ
  beta : ℚ := 0
  market_regime : Regime
  days_since_rebalance : ℤ
deriving DecidableEq, Repr

/-- MonitorResult.should_trigger_analyzer (src/models/decision.py lines 84-86). -/
def MonitorResult.should_trigger_analyzer (r : MonitorResult) : Bool :=
  decide (r.status = DecisionStatus.TRIGGER ∨ r.status = DecisionStatus.ALERT)

structure AnalyzerResult where
  scenarios : List Scenario
  recommended_scenario : Option Scenario := none
  confidence : ℚ := 0
  market_regime : Regime
deriving DecidableEq, Repr

structure Decision where
  decision_id : String
  decision_status : DecisionStatus
  chosen_scenario : Option Scenario := none
  reasoning : String := ""
  execution_timing : String := ""
  adaptive_adjustments : List String := []
  confidence : ℚ := 0
  expected_sharpe_impact : ℚ := 0
  expected_var_impact : ℚ := 0
  total_turnover : ℚ := 0
deriving DecidableEq, Repr

/-! ## Calculation library (src/utils/calculations.py) -/

/-- Python `d.get(k, default)` over an association list in insertion order. -/
def lookup (d : List (String × ℚ)) (k : String) (default : ℚ) : ℚ :=
  match d.find? (fun p => decide (p.1 = k)) with
  | some p => p.2
  | none => default

/-- calculate_implied_weights (src/utils/calculations.py lines 69-93). -/
def calculate_implied_weights (target_weights price_changes : List (String × ℚ)) :
    List (String × ℚ) :=
  let weighted_values := target_weights.map
    (fun p => (p.1, p.2 * (1 + lookup price_changes p.1 0)))
  let total_value := (weighted_values.map (fun p => p.2)).sum
  weighted_values.map
    (fun p => (p.1, if total_value > 0 then p.2 / total_value else 0))

/-- Python's built-in `round`: round half to even (banker's rounding). -/
def pyRound (q : ℚ) : ℤ :=
  if q - ⌊q⌋ < 1/2 then ⌊q⌋
  else if 1/2 < q - ⌊q⌋ then ⌊q⌋ + 1
  else if ⌊q⌋ % 2 = 0 then ⌊q⌋ else ⌊q⌋ + 1

/-- get_trade_priority (src/utils/calculations.py lines 144-161). -/
def get_trade_priority (drift : ℚ) : String :=
  if drift ≥ 3/100 then "CRITICAL"
  else if drift ≥ 2/100 then "HIGH"
  else if drift ≥ 15/1000 then "MEDIUM"
  else "LOW"

/-- calculate_rebalancing_trades (src/utils/calculations.py lines 96-141):
iterates the target-weight dictionary, skips tickers without a positive
live price, rounds the share count, and drops zero-share trades. -/
def calculate_rebalancing_trades (current_weights target_weights live_prices :
    List (String × ℚ)) (portfolio_value : ℚ) : List (String × Trade) :=
  target_weights.filterMap (fun p =>
    let ticker := p.1
    let target_weight := p.2
    let current_weight := lookup current_weights ticker 0
    let drift := |current_weight - target_weight|
    let target_value := portfolio_value * target_weight
    let current_value := portfolio_value * current_weight
    let trade_value := target_value - current_value
    let live_price := lookup live_prices ticker 0
    if live_price > 0 then
      let shares_to_trade := pyRound (trade_value / live_price)
      if shares_to_trade ≠ 0 then
        some (ticker,
          { ticker := ticker
            current_weight := current_weight
            target_weight := target_weight
            drift := drift
            shares := shares_to_trade.natAbs
            action := if shares_to_trade > 0 then "BUY" else "SELL"
            value := |trade_value|
            price := live_price
            priority := get_trade_priority drift })
      else none
    else none)

/-- classify_market_regime (src/utils/calculations.py lines 178-196). -/
def classify_market_regime (sharpe var_95 : ℚ) : Regime :=
  if sharpe ≥ 2 ∧ var_95 ≥ -(2/100) then Regime.LOW_VOL
  else if sharpe ≥ 1 ∧ var_95 ≥ -(25/1000) then Regime.MODERATE
  else if sharpe ≥ 1/2 ∧ var_95 ≥ -(35/1000) then Regime.HIGH_VOL
  else Regime.CRISIS

/-! ## Monitor Agent (src/agents/monitor_agent.py) -/

/-- MonitorAgent._determine_status (src/agents/monitor_agent.py lines 198-234). -/
def determine_status (max_position_drift max_sector_drift : ℚ)
    (risk_metrics : RiskMetrics) (market_regime : Regime) : DecisionStatus :=
  if max_position_drift ≥ DRIFT_THRESHOLD_CRITICAL
      ∨ max_sector_drift ≥ 5/100
      ∨ risk_metrics.var_95 < VAR_THRESHOLD_WARNING
      ∨ risk_metrics.sharpe_ratio < SHARPE_THRESHOLD_WARNING
      ∨ market_regime = Regime.CRISIS then
    DecisionStatus.TRIGGER
  else if max_position_drift ≥ 2/100
      ∨ max_sector_drift ≥ 3/100
      ∨ risk_metrics.var_95 < -(25/1000) then
    DecisionStatus.ALERT
  else
    DecisionStatus.MONITORING

/-! ## Analyzer Agent (src/agents/analyzer_agent.py) -/

/-- AnalyzerAgent._score_defer (src/agents/analyzer_agent.py lines 334-343). -/
def score_defer (mr : MonitorResult) : ℚ :=
  if mr.market_regime = Regime.CRISIS then 8
  else if mr.market_regime = Regime.HIGH_VOL then 6
  else if mr.max_position_drift > DRIFT_THRESHOLD_CRITICAL then 2
  else 5

/-- Python's `max(xs, key=lambda s: s.score)` starting from a first element:
a later element replaces the running maximum only when its score is
strictly greater, so the first-encountered maximum wins ties. -/
def pyMaxByScore (x : Scenario) (xs : List Scenario) : Scenario :=
  xs.foldl (fun acc s => if s.score > acc.score then s else acc) x

/-- AnalyzerAgent._select_best_scenario (src/agents/analyzer_agent.py
lines 345-362).  In the CRISIS branch the Python `next` raises
StopIteration when no DEFER scenario exists and `max` raises ValueError on
an empty list; both are modelled as `none`. -/
def select_best_scenario (scenarios : List Scenario) (mr : MonitorResult) :
    Option Scenario :=
  if mr.market_regime = Regime.CRISIS then
    scenarios.find? (fun s => decide (s.scenario_type = ScenarioType.DEFER))
  else
    match scenarios with
    | [] => none
    | x :: xs => some (pyMaxByScore x xs)

/-! ## Decision Agent (src/agents/decision_agent.py) -/

/-- The Decision Agent's cross-cycle mutable fields
(src/agents/decision_agent.py lines 25-28). -/
structure AgentState where
  decision_count : ℕ
  adaptive_threshold : ℚ
deriving DecidableEq, Repr

/-- DecisionAgent.__init__ (src/agents/decision_agent.py lines 25-28). -/
def AgentState.init : AgentState :=
  { decision_count := 0, adaptive_threshold := DRIFT_THRESHOLD_CRITICAL }

/-- The `next(s for s in scenarios if s.scenario_type == ScenarioType.DEFER)`
lookup used (without a default) at three places in
DecisionAgent._choose_scenario; `none` models the StopIteration it raises
when no DEFER scenario is present. -/
def find_defer (scenarios : List Scenario) : Option Scenario :=
  scenarios.find? (fun s => decide (s.scenario_type = ScenarioType.DEFER))

/-- DecisionAgent._choose_scenario (src/agents/decision_agent.py lines
102-159).  `none` models an uncaught exception: StopIteration from a
defaultless `next`, or the AttributeError raised at line 137 when
`recommended_scenario` is None. -/
def choose_scenario (st : AgentState) (ar : AnalyzerResult) (mr : MonitorResult) :
    Option Scenario :=
  if mr.market_regime = Regime.CRISIS then
    find_defer ar.scenarios
  else if mr.days_since_rebalance < REBALANCE_COOLDOWN_DAYS then
    find_defer ar.scenarios
  else
    match ar.recommended_scenario with
    | none => none
    | some recommended =>
      if recommended.calculate_turnover PORTFOLIO_BASIS > MAX_TURNOVER then
        some ((ar.scenarios.find?
          (fun s => decide (s.scenario_type = ScenarioType.PARTIAL_REBALANCE))).getD
            recommended)
      else if mr.max_position_drift < st.adaptive_threshold
          ∧ mr.market_regime = Regime.HIGH_VOL then
        find_defer ar.scenarios
      else
        some recommended

/-- Decision ids are minted as `REB-<date>-<seq>`; the date component comes
from the wall clock and is outside the embedding, so only the sequence
number is modelled. -/
def mint_decision_id (count : ℕ) : String :=
  "REB-" ++ toString count

/-- DecisionAgent._create_defer_decision (src/agents/decision_agent.py
lines 161-183). -/
def create_defer_decision (decision_id reason : String) (mr : MonitorResult) :
    Decision :=
  { decision_id := decision_id
    decision_status := DecisionStatus.DEFER
    chosen_scenario := some
      { scenario_type := ScenarioType.DEFER
        trades := []
        total_capital := 0
        num_trades := 0
        expected_max_drift := mr.max_position_drift
        score := 0
        tradeoffs := "Monitoring continues" }
    reasoning := reason
    execution_timing := "N/A"
    confidence := 1
    total_turnover := 0 }

/-- DecisionAgent.make_decision (src/agents/decision_agent.py lines 30-100),
with the mutation of `decision_count` and (inside
_generate_adaptive_adjustments, lines 288-294) of `adaptive_threshold`
made explicit: returns the updated state and the decision, `none` standing
for an uncaught exception out of _choose_scenario. -/
def make_decision (st : AgentState) (mr : MonitorResult) (ar : AnalyzerResult) :
    AgentState × Option Decision :=
  let count := st.decision_count + 1
  if ¬ mr.should_trigger_analyzer then
    ({ st with decision_count := count },
     some (create_defer_decision (mint_decision_id count)
       "Monitor status does not warrant action" mr))
  else
    match choose_scenario st ar mr with
    | none => ({ st with decision_count := count }, none)
    | some cs =>
      let status := if cs.scenario_type = ScenarioType.DEFER
        then DecisionStatus.DEFER else DecisionStatus.EXECUTE
      let threshold := if cs.scenario_type ≠ ScenarioType.DEFER
        then min (st.adaptive_threshold * (12/10)) (5/100)
        else st.adaptive_threshold
      ({ decision_count := count, adaptive_threshold := threshold },
       some
         { decision_id := mint_decision_id count
           decision_status := status
           chosen_scenario := some cs
           confidence := ar.confidence
           expected_sharpe_impact := cs.expected_sharpe_impact
           expected_var_impact := cs.expected_var_impact
           total_turnover := cs.calculate_turnover PORTFOLIO_BASIS })

/-- A sequence of make_decision calls against one DecisionAgent instance,
tracking only the evolving state. -/
def run_decisions (st : AgentState)
    (inputs : List (MonitorResult × AnalyzerResult)) : AgentState :=
  inputs.foldl (fun s p => (make_decision s p.1 p.2).1) st

/-! ## Cycle Orchestrator (src/workflows/rebalance_workflow.py) -/

structure WorkflowState where
  agent : AgentState
  decision_log : List Decision
deriving DecidableEq, Repr

def WorkflowState.init : WorkflowState :=
  { agent := AgentState.init, decision_log := [] }

/-- The attribute read `decision.chosen_scenario.adjusted_positions` at
src/workflows/rebalance_workflow.py line 76.  The Scenario dataclass
(src/models/decision.py lines 47-64) declares no `adjusted_positions`
field and no code in the repository ever sets one, so this access always
raises AttributeError; it is modelled as an access that always fails. -/
def Scenario.attr_adjusted_positions (_ : Scenario) :
    Option (List (String × ℚ)) := none

/-- RebalanceWorkflow.run_cycle (src/workflows/rebalance_workflow.py lines
35-93).  The collaborator reads are assumed to succeed: the MonitorResult
they produced is a parameter and the Scenario Evaluator is an explicit
function argument so that its non-invocation on the monitoring path is
visible structurally.  `none` models a cycle aborted by an uncaught
exception; `some` returns the new workflow state and the returned
decision. -/
def run_cycle (ws : WorkflowState) (mr : MonitorResult)
    (evaluate_scenarios : MonitorResult → AnalyzerResult) :
    Option (WorkflowState × Decision) :=
  if ¬ mr.should_trigger_analyzer then
    let decision := create_defer_decision "MON" mr.trigger_reason mr
    some ({ ws with decision_log := ws.decision_log ++ [decision] }, decision)
  else
    let analyzer_result := evaluate_scenarios mr
    match make_decision ws.agent mr analyzer_result with
    | (_, none) => none
    | (agent', some decision) =>
      match decision.chosen_scenario with
      | none =>
        some ({ agent := agent',
                decision_log := ws.decision_log ++ [decision] }, decision)
      | some cs =>
        match cs.attr_adjusted_positions with
        | none => none
        | some _ =>
          some ({ agent := agent',
                  decision_log := ws.decision_log ++ [decision] }, decision)

/-! ## Helper lemmas -/

lemma sum_map_div (l : List ℚ) (c : ℚ) :
    (l.map (fun x => x / c)).sum = l.sum / c := by
  induction l with
  | nil => simp
  | cons x xs ih => simp [ih, add_div]

lemma pyRound_nonneg (q : ℚ) (h : 0 ≤ q) : 0 ≤ pyRound q := by
  have hf : (0 : ℤ) ≤ ⌊q⌋ := Int.le_floor.mpr (by exact_mod_cast h)
  unfold pyRound
  split_ifs <;> omega

lemma pyRound_nonpos (q : ℚ) (h : q ≤ 0) : pyRound q ≤ 0 := by
  have hf : ⌊q⌋ ≤ 0 := by
    have h0 : ⌊q⌋ ≤ ⌊(0 : ℚ)⌋ := Int.floor_le_floor h
    simpa using h0
  have hfl : (⌊q⌋ : ℚ) ≤ q := Int.floor_le q
  unfold pyRound
  split_ifs with h1 h2 h3
  · exact hf
  · have hq : (⌊q⌋ : ℚ) < 0 := by
      have : (⌊q⌋ : ℚ) < q - 1/2 := by linarith
      linarith
    have : ⌊q⌋ < 0 := by exact_mod_cast hq
    omega
  · exact hf
  · have hge : 1/2 ≤ q - ⌊q⌋ := not_lt.mp h1
    have hq : (⌊q⌋ : ℚ) < 0 := by linarith
    have : ⌊q⌋ < 0 := by exact_mod_cast hq
    omega

lemma pyRound_pos_imp (q : ℚ) (h : 0 < pyRound q) : 0 < q := by
  by_contra hq
  push_neg at hq
  exact absurd h (not_lt.mpr (pyRound_nonpos q hq))

lemma pyRound_neg_imp (q : ℚ) (h : pyRound q < 0) : q < 0 := by
  by_contra hq
  push_neg at hq
  exact absurd h (not_lt.mpr (pyRound_nonneg q hq))

lemma assoc_eq_of_nodup {l : List (String × ℚ)} (h : (l.map Prod.fst).Nodup)
    {t : String} {w w' : ℚ} (h1 : (t, w) ∈ l) (h2 : (t, w') ∈ l) : w = w' := by
  induction l with
  | nil => cases h1
  | cons p rest ih =>
    rw [List.map_cons, List.nodup_cons] at h
    rcases List.mem_cons.mp h1 with e1 | m1
    · rcases List.mem_cons.mp h2 with e2 | m2
      · have e : (t, w) = (t, w') := e1.trans e2.symm
        simpa using congrArg Prod.snd e
      · exfalso
        apply h.1
        rw [← e1]
        exact List.mem_map.mpr ⟨(t, w'), m2, rfl⟩
    · rcases List.mem_cons.mp h2 with e2 | m2
      · exfalso
        apply h.1
        rw [← e2]
        exact List.mem_map.mpr ⟨(t, w), m1, rfl⟩
      · exact ih h.2 m1 m2

lemma pyMaxByScore_spec (xs : List Scenario) (acc : Scenario) :
    (pyMaxByScore acc xs = acc ∨ pyMaxByScore acc xs ∈ xs) ∧
    acc.score ≤ (pyMaxByScore acc xs).score ∧
    (∀ s ∈ xs, s.score ≤ (pyMaxByScore acc xs).score) ∧
    (pyMaxByScore acc xs = acc ∨
      ∃ pre suf, xs = pre ++ pyMaxByScore acc xs :: suf ∧
        acc.score < (pyMaxByScore acc xs).score ∧
        ∀ s ∈ pre, s.score < (pyMaxByScore acc xs).score) := by
  induction xs generalizing acc with
  | nil => simp [pyMaxByScore]
  | cons x rest ih =>
    have hstep : pyMaxByScore acc (x :: rest) =
        pyMaxByScore (if x.score > acc.score then x else acc) rest := rfl
    by_cases hx : x.score > acc.score
    · rw [hstep, if_pos hx]
      obtain ⟨h1, h2, h3, h4⟩ := ih x
      refine ⟨?_, by linarith, ?_, ?_⟩
      · rcases h1 with h | h
        · exact Or.inr (by rw [h]; exact List.mem_cons_self x rest)
        · exact Or.inr (List.mem_cons_of_mem x h)
      · intro s hs
        rcases List.mem_cons.mp hs with rfl | hs
        · exact h2
        · exact h3 s hs
      · rcases h4 with h | ⟨pre, suf, hdec, hlt, hpre⟩
        · refine Or.inr ⟨[], rest, by rw [h]; rfl, by rw [h]; exact hx, by simp⟩
        · refine Or.inr ⟨x :: pre, suf, by rw [List.cons_append, ← hdec], by linarith, ?_⟩
          intro s hs
          rcases List.mem_cons.mp hs with rfl | hs
          · linarith
          · exact hpre s hs
    · rw [hstep, if_neg hx]
      push_neg at hx
      obtain ⟨h1, h2, h3, h4⟩ := ih acc
      refine ⟨?_, h2, ?_, ?_⟩
      · rcases h1 with h | h
        · exact Or.inl h
        · exact Or.inr (List.mem_cons_of_mem x h)
      · intro s hs
        rcases List.mem_cons.mp hs with rfl | hs
        · linarith
        · exact h3 s hs
      · rcases h4 with h | ⟨pre, suf, hdec, hlt, hpre⟩
        · exact Or.inl h
        · refine Or.inr ⟨x :: pre, suf, by rw [List.cons_append, ← hdec], hlt, ?_⟩
          intro s hs
          rcases List.mem_cons.mp hs with rfl | hs
          · linarith
          · exact hpre s hs

/-! ## Concrete fixtures used to instantiate the theorems -/

def sFullW : Scenario := { scenario_type := ScenarioType.FULL_REBALANCE, score := 7 }

def sPartW : Scenario := { scenario_type := ScenarioType.PARTIAL_REBALANCE, score := 8 }

def sSectW : Scenario := { scenario_type := ScenarioType.SECTOR_REBALANCE, score := 6 }

def sDeferW : Scenario := { scenario_type := ScenarioType.DEFER, score := 5 }

def mrTrigW : MonitorResult :=
  { status := DecisionStatus.TRIGGER
    trigger_reason := "Max drift 4.0% exceeds 3.0% threshold"
    max_position_drift := 4/100
    max_sector_drift := 1/100
    var_95 := -(1/100)
    sharpe_ratio := 3/2
    market_regime := Regime.MODERATE
    days_since_rebalance := 7 }

def mrMonW : MonitorResult :=
  { status := DecisionStatus.MONITORING
    trigger_reason := "All metrics within normal ranges"
    max_position_drift := 1/100
    max_sector_drift := 1/100
    var_95 := -(1/100)
    sharpe_ratio := 3/2
    market_regime := Regime.MODERATE
    days_since_rebalance := 7 }

def mrCrisisW : MonitorResult :=
  { mrTrigW with market_regime := Regime.CRISIS }

def mrCooldownW : MonitorResult :=
  { mrTrigW with days_since_rebalance := 1 }

def arW : AnalyzerResult :=
  { scenarios := [sFullW, sPartW, sSectW, sDeferW]
    recommended_scenario := some sPartW
    confidence := 85/100
    market_regime := Regime.MODERATE }

/-- An analyzer result whose scenario list carries no DEFER scenario. -/
def arNoDeferW : AnalyzerResult :=
  { scenarios := [sFullW, sPartW, sSectW]
    recommended_scenario := some sPartW
    confidence := 85/100
    market_regime := Regime.CRISIS }

/-- A FULL_REBALANCE recommendation scored 9.0, as in the spec's cooldown
scenario. -/
def arFullNineW : AnalyzerResult :=
  { scenarios := [{ sFullW with score := 9 }, sPartW, sSectW, sDeferW]
    recommended_scenario := some { sFullW with score := 9 }
    confidence := 85/100
    market_regime := Regime.MODERATE }

def tradeW : Trade :=
  { ticker := "X", action := "SELL", shares := 67, value := 20000, price := 300
    current_weight := 12/100, target_weight := 1/10, drift := 1/50
    priority := "HIGH" }

/-! ## Claim theorems -/

/-- C5: the monitor status is TRIGGER iff one of the hard triggers fires
(max position drift ≥ critical threshold, max sector drift ≥ 0.05,
VaR(95) below the VaR warning threshold, Sharpe below the Sharpe warning
threshold, or CRISIS regime); else ALERT iff one of the soft conditions
fires (max position drift ≥ 0.02, max sector drift ≥ 0.03,
VaR(95) < −0.025); else MONITORING — the hard disjunction evaluated
first. -/
theorem monitor_status_ladder (max_position_drift max_sector_drift : ℚ)
    (rm : RiskMetrics) (regime : Regime) :
    (determine_status max_position_drift max_sector_drift rm regime
        = DecisionStatus.TRIGGER ↔
      (max_position_drift ≥ DRIFT_THRESHOLD_CRITICAL ∨ max_sector_drift ≥ 5/100 ∨
        rm.var_95 < VAR_THRESHOLD_WARNING ∨
        rm.sharpe_ratio < SHARPE_THRESHOLD_WARNING ∨ regime = Regime.CRISIS)) ∧
    (determine_status max_position_drift max_sector_drift rm regime
        = DecisionStatus.ALERT ↔
      (¬ (max_position_drift ≥ DRIFT_THRESHOLD_CRITICAL ∨ max_sector_drift ≥ 5/100 ∨
          rm.var_95 < VAR_THRESHOLD_WARNING ∨
          rm.sharpe_ratio < SHARPE_THRESHOLD_WARNING ∨ regime = Regime.CRISIS) ∧
        (max_position_drift ≥ 2/100 ∨ max_sector_drift ≥ 3/100 ∨
          rm.var_95 < -(25/1000)))) ∧
    (determine_status max_position_drift max_sector_drift rm regime
        = DecisionStatus.MONITORING ↔
      (¬ (max_position_drift ≥ DRIFT_THRESHOLD_CRITICAL ∨ max_sector_drift ≥ 5/100 ∨
          rm.var_95 < VAR_THRESHOLD_WARNING ∨
          rm.sharpe_ratio < SHARPE_THRESHOLD_WARNING ∨ regime = Regime.CRISIS) ∧
        ¬ (max_position_drift ≥ 2/100 ∨ max_sector_drift ≥ 3/100 ∨
          rm.var_95 < -(25/1000)))) := by
  unfold determine_status
  split_ifs with h1 h2 <;> simp_all

/-- C6: market-regime classification is the ordered ladder LOW_VOL →
MODERATE → HIGH_VOL → CRISIS with first match winning and both tier
conditions required; in particular sharpe = 2.5, var95 = −0.01 yields
LOW_VOL. -/
theorem market_regime_ladder (sharpe var95 : ℚ) :
    (classify_market_regime sharpe var95 = Regime.LOW_VOL ↔
      (sharpe ≥ 2 ∧ var95 ≥ -(2/100))) ∧
    (classify_market_regime sharpe var95 = Regime.MODERATE ↔
      (¬ (sharpe ≥ 2 ∧ var95 ≥ -(2/100)) ∧ (sharpe ≥ 1 ∧ var95 ≥ -(25/1000)))) ∧
    (classify_market_regime sharpe var95 = Regime.HIGH_VOL ↔
      (¬ (sharpe ≥ 2 ∧ var95 ≥ -(2/100)) ∧ ¬ (sharpe ≥ 1 ∧ var95 ≥ -(25/1000)) ∧
        (sharpe ≥ 1/2 ∧ var95 ≥ -(35/1000)))) ∧
    (classify_market_regime sharpe var95 = Regime.CRISIS ↔
      (¬ (sharpe ≥ 2 ∧ var95 ≥ -(2/100)) ∧ ¬ (sharpe ≥ 1 ∧ var95 ≥ -(25/1000)) ∧
        ¬ (sharpe ≥ 1/2 ∧ var95 ≥ -(35/1000)))) ∧
    classify_market_regime (5/2) (-(1/100)) = Regime.LOW_VOL := by
  refine ⟨?_, ?_, ?_, ?_, by norm_num [classify_market_regime]⟩ <;>
    · unfold classify_market_regime
      split_ifs with h1 h2 h3 <;> simp_all

/-- C10: Scenario.calculate_turnover is total: for a strictly positive
portfolio value it returns the summed trade values divided by the
portfolio value, and for a zero or negative portfolio value it returns 0,
so the division is always guarded. -/
theorem turnover_total (s : Scenario) (portfolio_value : ℚ) :
    (0 < portfolio_value →
      s.calculate_turnover portfolio_value
        = (s.trades.map (fun t => t.value)).sum / portfolio_value) ∧
    (portfolio_value ≤ 0 → s.calculate_turnover portfolio_value = 0) := by
  unfold Scenario.calculate_turnover
  constructor
  · intro h
    rw [if_pos h]
  · intro h
    rw [if_neg (not_lt.mpr h)]

/-- Witness for C10 at a concrete scenario and portfolio value. -/
theorem turnover_total_witness :
    (0 : ℚ) < 1000000 ∧
      ({ scenario_type := ScenarioType.DEFER, trades := [tradeW] } :
        Scenario).calculate_turnover 1000000
        = (([tradeW].map (fun t => t.value)).sum / 1000000 : ℚ) :=
  ⟨by norm_num,
   (turnover_total { scenario_type := ScenarioType.DEFER, trades := [tradeW] }
     1000000).1 (by norm_num)⟩

/-- C8 counterexample: with target weights {A ↦ 1, B ↦ −2} and no price
changes, ticker A has positive notional value 1, yet the total notional is
−1 ≤ 0, so every implied weight is 0 and the output sums to 0, not to 1
within 1e-6. -/
theorem implied_weights_positive_notional_counterexample :
    (∃ p ∈ ([("A", (1 : ℚ)), ("B", -2)] : List (String × ℚ)),
        0 < p.2 * (1 + lookup ([] : List (String × ℚ)) p.1 0)) ∧
    ¬ |((calculate_implied_weights [("A", (1 : ℚ)), ("B", -2)] []).map
        (fun p => p.2)).sum - 1| ≤ 1/1000000 := by
  constructor
  · exact ⟨("A", 1), by simp, by norm_num [lookup, List.find?]⟩
  · norm_num [calculate_implied_weights, lookup, List.find?]

lemma implied_weights_snd (tw pc : List (String × ℚ)) :
    (calculate_implied_weights tw pc).map (fun p => p.2)
      = (tw.map (fun p => p.2 * (1 + lookup pc p.1 0))).map
          (fun v =>
            if (tw.map (fun q => q.2 * (1 + lookup pc q.1 0))).sum > 0
            then v / (tw.map (fun q => q.2 * (1 + lookup pc q.1 0))).sum
            else 0) := by
  unfold calculate_implied_weights
  simp [List.map_map, Function.comp_def]

/-- C8 amended: the implied-weights output sums to 1.0 (within 1e-6, in
fact exactly) whenever the TOTAL notional value is strictly positive, and
every ticker's implied weight equals 0 when the total notional is ≤ 0. -/
theorem implied_weights_sum_amended (tw pc : List (String × ℚ)) :
    (0 < (tw.map (fun p => p.2 * (1 + lookup pc p.1 0))).sum →
      |((calculate_implied_weights tw pc).map (fun p => p.2)).sum - 1|
        ≤ 1/1000000) ∧
    ((tw.map (fun p => p.2 * (1 + lookup pc p.1 0))).sum ≤ 0 →
      ∀ p ∈ calculate_implied_weights tw pc, p.2 = 0) := by
  constructor
  · intro h
    have hsum : ((calculate_implied_weights tw pc).map (fun p => p.2)).sum = 1 := by
      rw [implied_weights_snd]
      simp only [if_pos h]
      rw [sum_map_div, div_self (ne_of_gt h)]
    rw [hsum]
    norm_num
  · intro h p hp
    unfold calculate_implied_weights at hp
    simp only [List.mem_map] at hp
    obtain ⟨a, _, rfl⟩ := hp
    simp only []
    rw [if_neg]
    intro hpos
    have : (tw.map (fun p => p.2 * (1 + lookup pc p.1 0))).sum > 0 := by
      simpa [List.map_map, Function.comp_def] using hpos
    linarith

/-- Witness for C8 amended at equal weights and a single price change. -/
theorem implied_weights_sum_amended_witness :
    (0 : ℚ) < (([("A", (1 : ℚ)/2), ("B", 1/2)] : List (String × ℚ)).map
        (fun p => p.2 * (1 + lookup [("A", 1/10)] p.1 0))).sum ∧
    |((calculate_implied_weights [("A", (1 : ℚ)/2), ("B", 1/2)]
        [("A", 1/10)]).map (fun p => p.2)).sum - 1| ≤ 1/1000000 :=
  ⟨by simp only [lookup, List.find?, String.reduceEq, List.map_cons, List.map_nil,
      List.sum_cons, List.sum_nil]; norm_num,
   (implied_weights_sum_amended [("A", (1 : ℚ)/2), ("B", 1/2)] [("A", 1/10)]).1
     (by simp only [lookup, List.find?, String.reduceEq, List.map_cons, List.map_nil,
        List.sum_cons, List.sum_nil]; norm_num)⟩

/-- C7: every trade emitted by calculate_rebalancing_trades has a strictly
positive recorded share count and a strictly positive live price; its
action is BUY exactly when target_value − current_value is positive and
SELL exactly when it is negative; no trade is emitted for a ticker whose
live price is not strictly positive; and rows whose computed share count
rounds to zero are omitted entirely. -/
theorem trades_emitted_sound (cw tw lp : List (String × ℚ)) (pv : ℚ) :
    (∀ p ∈ calculate_rebalancing_trades cw tw lp pv,
      0 < p.2.shares ∧
      0 < p.2.price ∧
      p.2.price = lookup lp p.1 0 ∧
      (p.2.action = "BUY" ↔
        0 < pv * p.2.target_weight - pv * p.2.current_weight) ∧
      (p.2.action = "SELL" ↔
        pv * p.2.target_weight - pv * p.2.current_weight < 0)) ∧
    (∀ t w, (t, w) ∈ tw → ¬ 0 < lookup lp t 0 →
      ∀ tr, (t, tr) ∉ calculate_rebalancing_trades cw tw lp pv) ∧
    ((tw.map Prod.fst).Nodup →
      ∀ t w, (t, w) ∈ tw →
        pyRound ((pv * w - pv * lookup cw t 0) / lookup lp t 0) = 0 →
        ∀ tr, (t, tr) ∉ calculate_rebalancing_trades cw tw lp pv) := by
  refine ⟨?_, ?_, ?_⟩
  · intro p hp
    rw [calculate_rebalancing_trades, List.mem_filterMap] at hp
    obtain ⟨a, _, hfa⟩ := hp
    dsimp only at hfa
    split_ifs at hfa with hprice hshares hsign
    · obtain rfl := Option.some.inj hfa
      have hq := pyRound_pos_imp _ hsign
      have htv : 0 < pv * a.2 - pv * lookup cw a.1 0 := by
        have h2 := mul_pos hq hprice
        rwa [div_mul_cancel₀ _ (ne_of_gt hprice)] at h2
      exact ⟨Int.natAbs_pos.mpr hshares, hprice, rfl,
        iff_of_true rfl htv,
        iff_of_false (by simp) (by linarith)⟩
    · obtain rfl := Option.some.inj hfa
      have hneg : pyRound ((pv * a.2 - pv * lookup cw a.1 0) /
          lookup lp a.1 0) < 0 :=
        lt_of_le_of_ne (not_lt.mp hsign) hshares
      have hq := pyRound_neg_imp _ hneg
      have htv : pv * a.2 - pv * lookup cw a.1 0 < 0 := by
        have h2 := mul_neg_of_neg_of_pos hq hprice
        rwa [div_mul_cancel₀ _ (ne_of_gt hprice)] at h2
      exact ⟨Int.natAbs_pos.mpr hshares, hprice, rfl,
        iff_of_false (by simp) (by linarith),
        iff_of_true rfl htv⟩
  · intro t w _ hnp tr hmem
    rw [calculate_rebalancing_trades, List.mem_filterMap] at hmem
    obtain ⟨a, _, hfa⟩ := hmem
    dsimp only at hfa
    split_ifs at hfa with hprice hshares hsign
    · have ht : a.1 = t := congrArg Prod.fst (Option.some.inj hfa)
      rw [ht] at hprice
      exact hnp hprice
    · have ht : a.1 = t := congrArg Prod.fst (Option.some.inj hfa)
      rw [ht] at hprice
      exact hnp hprice
  · intro hnd t w htw hz tr hmem
    rw [calculate_rebalancing_trades, List.mem_filterMap] at hmem
    obtain ⟨a, ha, hfa⟩ := hmem
    dsimp only at hfa
    split_ifs at hfa with hprice hshares hsign
    · have ht : a.1 = t := congrArg Prod.fst (Option.some.inj hfa)
      have ha2 : (t, a.2) ∈ tw := by
        rw [← ht]
        exact ha
      have hw : a.2 = w := assoc_eq_of_nodup hnd ha2 htw
      apply hshares
      rw [ht, hw]
      exact hz
    · have ht : a.1 = t := congrArg Prod.fst (Option.some.inj hfa)
      have ha2 : (t, a.2) ∈ tw := by
        rw [← ht]
        exact ha
      have hw : a.2 = w := assoc_eq_of_nodup hnd ha2 htw
      apply hshares
      rw [ht, hw]
      exact hz

/-- A concrete trade used to witness C7: buy 100 shares of X at price 1
to move from weight 0 to weight 1 on a 100-unit portfolio. -/
def tradeB : Trade :=
  { ticker := "X", action := "BUY", shares := 100, value := 100, price := 1
    current_weight := 0, target_weight := 1, drift := 1
    priority := "CRITICAL" }

lemma tradeB_mem : ("X", tradeB) ∈ calculate_rebalancing_trades
    [] [("X", (1 : ℚ))] [("X", 1)] 100 := by
  have hfloor : ⌊(100 : ℚ)⌋ = 100 := by
    rw [show (100 : ℚ) = ((100 : ℤ) : ℚ) by norm_num, Int.floor_intCast]
  have hround : pyRound ((100 * (1 : ℚ) - 100 * lookup [] "X" 0) /
      lookup [("X", 1)] "X" 0) = 100 := by
    have harg : (100 * (1 : ℚ) - 100 * lookup [] "X" 0) /
        lookup [("X", 1)] "X" 0 = 100 := by
      simp [lookup, List.find?]
    rw [pyRound, harg, hfloor]
    norm_num
  rw [calculate_rebalancing_trades, List.mem_filterMap]
  refine ⟨("X", 1), by simp, ?_⟩
  dsimp only
  rw [if_pos (by simp [lookup, List.find?] : lookup [("X", (1 : ℚ))] "X" 0 > 0),
    if_pos (by rw [hround]; norm_num)]
  rw [Option.some.injEq, Prod.mk.injEq]
  refine ⟨rfl, ?_⟩
  rw [Trade.mk.injEq]
  have habs : |lookup ([] : List (String × ℚ)) "X" 0 - (1 : ℚ)| = 1 := by
    simp [lookup]
  refine ⟨rfl, ?_, ?_, ?_, ?_, ?_, rfl, ?_, ?_, rfl, rfl⟩
  · rw [if_pos (by rw [hround]; norm_num)]
    rfl
  · rw [hround]
    rfl
  · rw [show (100 * (1 : ℚ) - 100 * lookup [] "X" 0) = 100 by simp [lookup]]
    norm_num [tradeB]
  · simp [lookup, List.find?, tradeB]
  · simp [lookup, tradeB]
  · rw [habs]
    rfl
  · rw [habs, get_trade_priority, if_pos (by norm_num)]
    rfl

/-- Witness for C7 at the concrete input of tradeB_mem. -/
theorem trades_emitted_sound_witness :
    ("X", tradeB) ∈ calculate_rebalancing_trades
      [] [("X", (1 : ℚ))] [("X", 1)] 100 ∧
    (0 < tradeB.shares ∧
      0 < tradeB.price ∧
      tradeB.price = lookup [("X", (1 : ℚ))] "X" 0 ∧
      (tradeB.action = "BUY" ↔
        0 < 100 * tradeB.target_weight - 100 * tradeB.current_weight) ∧
      (tradeB.action = "SELL" ↔
        100 * tradeB.target_weight - 100 * tradeB.current_weight < 0)) :=
  ⟨tradeB_mem,
   (trades_emitted_sound [] [("X", (1 : ℚ))] [("X", 1)] 100).1
     ("X", tradeB) tradeB_mem⟩

/-- C3: over the evaluator's scenario list in insertion order
FULL_REBALANCE, PARTIAL_REBALANCE, SECTOR_REBALANCE, DEFER — if the market
regime is CRISIS the recommended scenario is the DEFER scenario regardless
of all scores; otherwise the recommended scenario carries the maximum
score and every scenario placed before it in the list scores strictly
less, so ties break in favor of the first-encountered scenario. -/
theorem select_best_crisis_or_first_argmax (sf sp ss sd : Scenario)
    (mr : MonitorResult)
    (hf : sf.scenario_type = ScenarioType.FULL_REBALANCE)
    (hp : sp.scenario_type = ScenarioType.PARTIAL_REBALANCE)
    (hs : ss.scenario_type = ScenarioType.SECTOR_REBALANCE)
    (hd : sd.scenario_type = ScenarioType.DEFER) :
    (mr.market_regime = Regime.CRISIS →
      select_best_scenario [sf, sp, ss, sd] mr = some sd) ∧
    (mr.market_regime ≠ Regime.CRISIS →
      ∃ b pre suf, select_best_scenario [sf, sp, ss, sd] mr = some b ∧
        [sf, sp, ss, sd] = pre ++ b :: suf ∧
        (∀ s ∈ [sf, sp, ss, sd], s.score ≤ b.score) ∧
        (∀ s ∈ pre, s.score < b.score)) := by
  constructor
  · intro hc
    rw [select_best_scenario, if_pos hc]
    simp [List.find?, hf, hp, hs, hd]
  · intro hnc
    rw [select_best_scenario, if_neg hnc]
    obtain ⟨h1, h2, h3, h4⟩ := pyMaxByScore_spec [sp, ss, sd] sf
    rcases h4 with h | ⟨pre, suf, hdec, hlt, hpre⟩
    · refine ⟨pyMaxByScore sf [sp, ss, sd], [], [sp, ss, sd],
        rfl, by rw [h]; rfl, ?_, by simp⟩
      intro s hs4
      rcases List.mem_cons.mp hs4 with rfl | hs4
      · exact h2
      · exact h3 s hs4
    · refine ⟨pyMaxByScore sf [sp, ss, sd], sf :: pre, suf,
        rfl, by rw [List.cons_append, ← hdec], ?_, ?_⟩
      · intro s hs4
        rcases List.mem_cons.mp hs4 with rfl | hs4
        · exact h2
        · exact h3 s hs4
      · intro s hs4
        rcases List.mem_cons.mp hs4 with rfl | hs4
        · exact hlt
        · exact hpre s hs4

/-- Witness for C3 at the four concrete scenarios and a MODERATE-regime
monitor result. -/
theorem select_best_crisis_or_first_argmax_witness :
    mrTrigW.market_regime ≠ Regime.CRISIS ∧
    (∃ b pre suf,
      select_best_scenario [sFullW, sPartW, sSectW, sDeferW] mrTrigW = some b ∧
      [sFullW, sPartW, sSectW, sDeferW] = pre ++ b :: suf ∧
      (∀ s ∈ [sFullW, sPartW, sSectW, sDeferW], s.score ≤ b.score) ∧
      (∀ s ∈ pre, s.score < b.score)) :=
  ⟨by simp [mrTrigW],
   (select_best_crisis_or_first_argmax sFullW sPartW sSectW sDeferW mrTrigW
      rfl rfl rfl rfl).2 (by simp [mrTrigW])⟩

/-- C4: when the monitor warrants analysis, the regime is not CRISIS and
days_since_rebalance is strictly below the cooldown period, make_decision
chooses the (first) DEFER scenario and the decision status is DEFER,
regardless of the analyzer's recommendation or its score. -/
theorem cooldown_forces_defer (st : AgentState) (mr : MonitorResult)
    (ar : AnalyzerResult) (sd : Scenario)
    (htr : mr.should_trigger_analyzer = true)
    (hnc : mr.market_regime ≠ Regime.CRISIS)
    (hcd : mr.days_since_rebalance < REBALANCE_COOLDOWN_DAYS)
    (hfind : find_defer ar.scenarios = some sd) :
    ∃ d, (make_decision st mr ar).2 = some d ∧
      d.decision_status = DecisionStatus.DEFER ∧
      d.chosen_scenario = some sd := by
  have hsd : sd.scenario_type = ScenarioType.DEFER := by
    have h := List.find?_some hfind
    simpa using h
  have hcs : choose_scenario st ar mr = some sd := by
    rw [choose_scenario, if_neg hnc, if_pos hcd]
    exact hfind
  simp only [make_decision, htr]
  simp [hcs, hsd]

/-- Witness for C4: days since rebalance 1 with cooldown 3, analyzer
recommending FULL_REBALANCE at score 9.0 — the decision is still DEFER. -/
theorem cooldown_forces_defer_witness :
    ∃ d, (make_decision AgentState.init mrCooldownW arFullNineW).2 = some d ∧
      d.decision_status = DecisionStatus.DEFER ∧
      d.chosen_scenario = some sDeferW :=
  cooldown_forces_defer AgentState.init mrCooldownW arFullNineW sDeferW
    rfl (by simp [mrCooldownW, mrTrigW])
    (by norm_num [mrCooldownW, mrTrigW, REBALANCE_COOLDOWN_DAYS]) rfl

/-- C2 counterexample: in a CRISIS regime with a scenario list missing the
DEFER scenario, make_decision raises StopIteration (modelled as `none`)
instead of falling back to the recommended scenario. -/
theorem make_decision_missing_defer_raises :
    (make_decision AgentState.init mrCrisisW arNoDeferW).2 = none := by
  have htr : mrCrisisW.should_trigger_analyzer = true := rfl
  have hcs : choose_scenario AgentState.init arNoDeferW mrCrisisW = none := by
    rw [choose_scenario, if_pos (by simp [mrCrisisW, mrTrigW])]
    rfl
  simp only [make_decision, htr]
  simp [hcs]

/-- C2 amended: make_decision does not raise provided the scenario list
contains a DEFER scenario and a recommended scenario is present; when the
PARTIAL_REBALANCE scenario is absent, every scenario the override policy
can choose is either a DEFER scenario (the forcing branches) or exactly
the analyzer's recommended scenario (the turnover fallback and the default
branch) — but absence of the DEFER scenario itself makes the defaultless
`next` lookups raise, as the counterexample shows. -/
theorem make_decision_fallback_amended (st : AgentState) (mr : MonitorResult)
    (ar : AnalyzerResult) (r : Scenario)
    (hrec : ar.recommended_scenario = some r)
    (hdef : (find_defer ar.scenarios).isSome) :
    (make_decision st mr ar).2.isSome ∧
    (ar.scenarios.find?
        (fun s => decide (s.scenario_type = ScenarioType.PARTIAL_REBALANCE))
          = none →
      ∀ cs, choose_scenario st ar mr = some cs →
        cs.scenario_type = ScenarioType.DEFER ∨ cs = r) := by
  constructor
  · have hcs : (choose_scenario st ar mr).isSome := by
      rw [choose_scenario]
      by_cases h1 : mr.market_regime = Regime.CRISIS
      · rw [if_pos h1]
        exact hdef
      · rw [if_neg h1]
        by_cases h2 : mr.days_since_rebalance < REBALANCE_COOLDOWN_DAYS
        · rw [if_pos h2]
          exact hdef
        · rw [if_neg h2]
          simp only [hrec]
          by_cases h3 : r.calculate_turnover PORTFOLIO_BASIS > MAX_TURNOVER
          · rw [if_pos h3]
            rfl
          · rw [if_neg h3]
            by_cases h4 : mr.max_position_drift < st.adaptive_threshold
              ∧ mr.market_regime = Regime.HIGH_VOL
            · rw [if_pos h4]
              exact hdef
            · rw [if_neg h4]
              rfl
    obtain ⟨cs, hcseq⟩ := Option.isSome_iff_exists.mp hcs
    simp only [make_decision]
    split_ifs with h <;> simp [hcseq]
  · intro hpart cs hcseq
    simp only [choose_scenario, hrec] at hcseq
    split_ifs at hcseq with h1 h2 h3 h4
    · left
      have h := List.find?_some hcseq
      simpa using h
    · left
      have h := List.find?_some hcseq
      simpa using h
    · rw [hpart] at hcseq
      right
      simpa using hcseq.symm
    · left
      have h := List.find?_some hcseq
      simpa using h
    · right
      simpa using hcseq.symm

/-- Witness for C2 amended at a full scenario list with a recommendation. -/
theorem make_decision_fallback_amended_witness :
    (make_decision AgentState.init mrTrigW arW).2.isSome ∧
    (arW.scenarios.find?
        (fun s => decide (s.scenario_type = ScenarioType.PARTIAL_REBALANCE))
          = none →
      ∀ cs, choose_scenario AgentState.init arW mrTrigW = some cs →
        cs.scenario_type = ScenarioType.DEFER ∨ cs = sPartW) :=
  make_decision_fallback_amended AgentState.init mrTrigW arW sPartW rfl rfl

lemma make_decision_threshold_step (st : AgentState) (mr : MonitorResult)
    (ar : AnalyzerResult) :
    (make_decision st mr ar).1.adaptive_threshold = st.adaptive_threshold ∨
    (make_decision st mr ar).1.adaptive_threshold
      = min (st.adaptive_threshold * (12/10)) (5/100) := by
  simp only [make_decision]
  split_ifs with h
  · rcases hcs : choose_scenario st ar mr with _ | cs
    · simp [hcs]
    · simp only [hcs]
      by_cases hd : cs.scenario_type = ScenarioType.DEFER
      · exact Or.inl (by simp [hd])
      · exact Or.inr (by simp [hd])
  · exact Or.inl rfl

lemma threshold_step_bounds (st : AgentState) (mr : MonitorResult)
    (ar : AnalyzerResult)
    (hlo : DRIFT_THRESHOLD_CRITICAL ≤ st.adaptive_threshold)
    (hhi : st.adaptive_threshold ≤ 5/100) :
    st.adaptive_threshold ≤ (make_decision st mr ar).1.adaptive_threshold ∧
    DRIFT_THRESHOLD_CRITICAL ≤ (make_decision st mr ar).1.adaptive_threshold ∧
    (make_decision st mr ar).1.adaptive_threshold ≤ 5/100 := by
  have hc : DRIFT_THRESHOLD_CRITICAL = (3 : ℚ)/100 := rfl
  rcases make_decision_threshold_step st mr ar with h | h <;> rw [h]
  · exact ⟨le_refl _, hlo, hhi⟩
  · rw [hc] at hlo
    refine ⟨le_min (by linarith) hhi, ?_, min_le_right _ _⟩
    rw [hc]
    exact le_min (by linarith) (by norm_num)

lemma run_decisions_bounds (inputs : List (MonitorResult × AnalyzerResult))
    (st : AgentState)
    (hlo : DRIFT_THRESHOLD_CRITICAL ≤ st.adaptive_threshold)
    (hhi : st.adaptive_threshold ≤ 5/100) :
    DRIFT_THRESHOLD_CRITICAL ≤ (run_decisions st inputs).adaptive_threshold ∧
    (run_decisions st inputs).adaptive_threshold ≤ 5/100 := by
  induction inputs generalizing st with
  | nil => exact ⟨hlo, hhi⟩
  | cons p rest ih =>
    obtain ⟨_, h2, h3⟩ := threshold_step_bounds st p.1 p.2 hlo hhi
    exact ih (make_decision st p.1 p.2).1 h2 h3

/-- C9: the adaptive threshold starts at the critical drift threshold, is
replaced by min(1.2 × old, 0.05) exactly on decisions whose chosen
scenario is not DEFER and is left unchanged otherwise (including aborted
and short-circuited calls), never decreases, and stays in the interval
[critical drift threshold, 0.05] across every sequence of make_decision
calls on one DecisionAgent instance. -/
theorem adaptive_threshold_evolution (st : AgentState) (mr : MonitorResult)
    (ar : AnalyzerResult)
    (hlo : DRIFT_THRESHOLD_CRITICAL ≤ st.adaptive_threshold)
    (hhi : st.adaptive_threshold ≤ 5/100) :
    AgentState.init.adaptive_threshold = DRIFT_THRESHOLD_CRITICAL ∧
    ((∃ d cs, (make_decision st mr ar).2 = some d ∧
        d.chosen_scenario = some cs ∧
        cs.scenario_type ≠ ScenarioType.DEFER) →
      (make_decision st mr ar).1.adaptive_threshold
        = min (st.adaptive_threshold * (12/10)) (5/100)) ∧
    ((∀ d cs, (make_decision st mr ar).2 = some d →
        d.chosen_scenario = some cs → cs.scenario_type = ScenarioType.DEFER) →
      (make_decision st mr ar).1.adaptive_threshold = st.adaptive_threshold) ∧
    st.adaptive_threshold ≤ (make_decision st mr ar).1.adaptive_threshold ∧
    DRIFT_THRESHOLD_CRITICAL ≤ (make_decision st mr ar).1.adaptive_threshold ∧
    (make_decision st mr ar).1.adaptive_threshold ≤ 5/100 ∧
    (∀ inputs : List (MonitorResult × AnalyzerResult),
      DRIFT_THRESHOLD_CRITICAL
        ≤ (run_decisions AgentState.init inputs).adaptive_threshold ∧
      (run_decisions AgentState.init inputs).adaptive_threshold ≤ 5/100) := by
  obtain ⟨hb1, hb2, hb3⟩ := threshold_step_bounds st mr ar hlo hhi
  refine ⟨rfl, ?_, ?_, hb1, hb2, hb3, ?_⟩
  · rintro ⟨d, cs, hd, hdc, hne⟩
    simp only [make_decision] at hd ⊢
    split_ifs at hd ⊢ with h
    · rcases hcs : choose_scenario st ar mr with _ | cs0
      · simp only [hcs] at hd
        exact absurd hd (by simp)
      · simp only [hcs] at hd ⊢
        obtain rfl := Option.some.inj hd
        obtain rfl := Option.some.inj hdc
        simp [hne]
    · exfalso
      obtain rfl := Option.some.inj hd
      rw [create_defer_decision] at hdc
      obtain rfl := Option.some.inj hdc
      exact hne rfl
  · intro hall
    simp only [make_decision] at hall ⊢
    split_ifs at hall ⊢ with h
    · rcases hcs : choose_scenario st ar mr with _ | cs0
      · simp [hcs]
      · simp only [hcs] at hall ⊢
        have hdd : cs0.scenario_type = ScenarioType.DEFER := hall _ cs0 rfl rfl
        simp [hdd]
    · rfl
  · intro inputs
    exact run_decisions_bounds inputs AgentState.init (le_refl _)
      (by norm_num [AgentState.init, DRIFT_THRESHOLD_CRITICAL])

/-- Witness for C9 at the initial agent state and a concrete triggered
cycle choosing PARTIAL_REBALANCE. -/
theorem adaptive_threshold_evolution_witness :
    AgentState.init.adaptive_threshold = DRIFT_THRESHOLD_CRITICAL ∧
    DRIFT_THRESHOLD_CRITICAL
      ≤ (make_decision AgentState.init mrTrigW arW).1.adaptive_threshold ∧
    (make_decision AgentState.init mrTrigW arW).1.adaptive_threshold
      ≤ 5/100 := by
  have h := adaptive_threshold_evolution AgentState.init mrTrigW arW
    (le_refl _) (by norm_num [AgentState.init, DRIFT_THRESHOLD_CRITICAL])
  exact ⟨h.1, h.2.2.2.2.1, h.2.2.2.2.2.1⟩

/-- C1: evaluation of run_cycle at a concrete triggered cycle whose
collaborator reads all succeed.  First conjunct: the cycle aborts
(AttributeError on the nonexistent `Scenario.adjusted_positions` at
rebalance_workflow.py line 76) and no Decision is appended — refuting the
claim that every successful-collaborator cycle appends exactly one
Decision.  Second and third conjuncts: the monitoring half of the claim
does hold — when the monitor does not warrant analysis the result is
independent of the Scenario Evaluator (it is never invoked) and exactly
one DEFER decision is logged. -/
theorem run_cycle_trigger_path_drops_decision :
    run_cycle WorkflowState.init mrTrigW (fun _ => arW) = none ∧
    (∀ ev ev' : MonitorResult → AnalyzerResult,
      run_cycle WorkflowState.init mrMonW ev
        = run_cycle WorkflowState.init mrMonW ev') ∧
    (run_cycle WorkflowState.init mrMonW (fun _ => arW)).map
        (fun p => (p.1.decision_log.length, p.2.decision_status))
      = some (1, DecisionStatus.DEFER) := by
  have hmon : ¬ (mrMonW.should_trigger_analyzer = true) := by
    simp [MonitorResult.should_trigger_analyzer, mrMonW]
  refine ⟨?_, ?_, ?_⟩
  · have htr : mrTrigW.should_trigger_analyzer = true := rfl
    have hto : ¬ (sPartW.calculate_turnover PORTFOLIO_BASIS > MAX_TURNOVER) := by
      rw [Scenario.calculate_turnover]
      norm_num [sPartW, PORTFOLIO_BASIS, MAX_TURNOVER]
    have hcs : choose_scenario WorkflowState.init.agent arW mrTrigW
        = some sPartW := by
      rw [choose_scenario,
        if_neg (by simp [mrTrigW] : ¬ (mrTrigW.market_regime = Regime.CRISIS)),
        if_neg (by norm_num [mrTrigW, REBALANCE_COOLDOWN_DAYS])]
      simp only [arW]
      rw [if_neg hto, if_neg (by simp [mrTrigW])]
    simp only [run_cycle, htr]
    simp only [make_decision, htr]
    rcases hcse : choose_scenario WorkflowState.init.agent arW mrTrigW
      with _ | cs
    · rw [hcse] at hcs
      exact absurd hcs (by simp)
    · rw [hcse] at hcs
      obtain rfl := Option.some.inj hcs
      simp [hcse, Scenario.attr_adjusted_positions]
  · intro ev ev'
    rw [run_cycle, run_cycle, if_pos hmon, if_pos hmon]
  · rw [run_cycle, if_pos hmon]
    simp [WorkflowState.init, create_defer_decision]

end Rebal
